import Mathlib

set_option autoImplicit false

/-!
Shallow embedding of `airflow/www/security_manager.py` (class `AirflowSecurityManagerV2`):
the authorization resolution layer sitting between the FAB permission hook and the
pluggable auth manager.  Stateful collaborators (the SQLAlchemy session and the auth
manager) are modelled as explicit values: the session as in-memory row lists (`Stores`),
the auth manager as a record of boolean policy functions (`AuthManager`).  Each check
function is embedded as a computation that either fails with the Python exception it
would raise or yields a description of the backend invocation it performs
(`Outcome`); evaluating that description against an `AuthManager` yields the boolean
the Python code returns.
-/

namespace AirflowSM

/-- A user identity; opaque to this layer, only forwarded to the auth manager. -/
abbrev User := String

/-- Modelled from the spec: action-name constant imported by the source from the
framework permissions module (not under src/); only identity and distinctness matter. -/
def ACTION_CAN_CREATE : String := "can_create"

/-- Modelled from the spec: action-name constant from the framework permissions module. -/
def ACTION_CAN_READ : String := "can_read"

/-- Modelled from the spec: action-name constant from the framework permissions module. -/
def ACTION_CAN_EDIT : String := "can_edit"

/-- Modelled from the spec: action-name constant from the framework permissions module. -/
def ACTION_CAN_DELETE : String := "can_delete"

/-- Modelled from the spec: action-name constant from the framework permissions module. -/
def ACTION_CAN_ACCESS_MENU : String := "menu_access"

/-- Modelled from the spec: resource-name constant from the framework permissions module. -/
def RESOURCE_ADMIN_MENU : String := "Admin"

/-- Modelled from the spec: resource-name constant from the framework permissions module. -/
def RESOURCE_AUDIT_LOG : String := "Audit Logs"

/-- Modelled from the spec: resource-name constant from the framework permissions module. -/
def RESOURCE_BROWSE_MENU : String := "Browse"

/-- Modelled from the spec: resource-name constant from the framework permissions module. -/
def RESOURCE_CLUSTER_ACTIVITY : String := "Cluster Activity"

/-- Modelled from the spec: resource-name constant from the framework permissions module. -/
def RESOURCE_CONFIG : String := "Configurations"

/-- Modelled from the spec: resource-name constant from the framework permissions module. -/
def RESOURCE_CONNECTION : String := "Connections"

/-- Modelled from the spec: resource-name constant from the framework permissions module. -/
def RESOURCE_DAG : String := "DAGs"

/-- Modelled from the spec: resource-name constant from the framework permissions module. -/
def RESOURCE_DAG_CODE : String := "DAG Code"

/-- Modelled from the spec: resource-name constant from the framework permissions module. -/
def RESOURCE_DAG_DEPENDENCIES : String := "DAG Dependencies"

/-- Modelled from the spec: resource-name constant from the framework permissions module. -/
def RESOURCE_DAG_RUN : String := "DAG Runs"

/-- Modelled from the spec: resource-name constant from the framework permissions module. -/
def RESOURCE_DATASET : String := "Datasets"

/-- Modelled from the spec: resource-name constant from the framework permissions module.
Note the docs view resource and the docs menu category are distinct names. -/
def RESOURCE_DOCS : String := "Documentation"

/-- Modelled from the spec: resource-name constant from the framework permissions module. -/
def RESOURCE_DOCS_MENU : String := "Docs"

/-- Modelled from the spec: resource-name constant from the framework permissions module. -/
def RESOURCE_JOB : String := "Jobs"

/-- Modelled from the spec: resource-name constant from the framework permissions module. -/
def RESOURCE_PLUGIN : String := "Plugins"

/-- Modelled from the spec: resource-name constant from the framework permissions module. -/
def RESOURCE_POOL : String := "Pools"

/-- Modelled from the spec: resource-name constant from the framework permissions module. -/
def RESOURCE_PROVIDER : String := "Providers"

/-- Modelled from the spec: resource-name constant from the framework permissions module. -/
def RESOURCE_SLA_MISS : String := "SLA Misses"

/-- Modelled from the spec: resource-name constant from the framework permissions module. -/
def RESOURCE_TASK_INSTANCE : String := "Task Instances"

/-- Modelled from the spec: resource-name constant from the framework permissions module. -/
def RESOURCE_TASK_RESCHEDULE : String := "Task Reschedules"

/-- Modelled from the spec: resource-name constant from the framework permissions module. -/
def RESOURCE_TRIGGER : String := "Triggers"

/-- Modelled from the spec: resource-name constant from the framework permissions module. -/
def RESOURCE_VARIABLE : String := "Variables"

/-- Modelled from the spec: resource-name constant from the framework permissions module. -/
def RESOURCE_XCOM : String := "XComs"

/-- Backend method enum (the auth-manager-level verb a FAB action translates to). -/
inductive Method where
  | GET
  | PUT
  | DELETE
  | POST
deriving DecidableEq, Repr

/-- Modelled from the spec: the ActionMap produced by `get_method_from_fab_action_map`
(a utility outside src/): a static mapping from framework action name to backend method
enum (create, read, edit, delete); actions outside the map are absent. -/
def fab_action_methods (action : String) : Option Method :=
  if action == ACTION_CAN_CREATE then some .POST
  else if action == ACTION_CAN_READ then some .GET
  else if action == ACTION_CAN_EDIT then some .PUT
  else if action == ACTION_CAN_DELETE then some .DELETE
  else none

/-- Python errors the embedded code can raise: `AirflowException(msg)` from the
instance-key resolvers, a `KeyError` from the dict subscript `methods[action]`, a
`json.loads` failure on a payload that is not JSON-array text, and an `IndexError`
from subscripting a decoded list out of range. -/
inductive PyErr where
  | airflowException (msg : String)
  | keyError
  | jsonError
  | indexError
deriving DecidableEq, Repr

/-- The dict subscript `methods[action]`: a missing key raises `KeyError`. -/
def methodsIndex (action : String) : Except PyErr Method :=
  match fab_action_methods action with
  | some m => .ok m
  | none => .error .keyError

/-- An element of a JSON array payload, as far as the composite task-instance key
needs: a string or an integer. -/
inductive JVal where
  | str (v : String)
  | int (n : Int)
deriving DecidableEq, Repr

/-- The raw `resource_pk` payload supplied by the framework.  `Pk.str` is a scalar
identifier string (the form the id-based resolvers compare against a row id);
`Pk.jsonArr` is a payload whose JSON text is an array (the form the task-instance
resolver decodes).  The standard-library `json.loads` is an external collaborator and
is modelled only at this granularity (see `json_loads`). -/
inductive Pk where
  | str (s : String)
  | jsonArr (xs : List JVal)
deriving DecidableEq, Repr

/-- Python truthiness of `resource_pk` as tested by `if not resource_pk`: `None` and
the empty string are falsy; a JSON-array payload is a nonempty string, hence truthy. -/
def pkIsFalsy : Option Pk → Bool
  | none => true
  | some (.str s) => s == ""
  | some (.jsonArr _) => false

/-- The SQL comparison of an integer id column with the `resource_pk` string
(`Model.id == resource_pk`): row ids are modelled as strings and compared for
equality; a JSON-array payload never matches an id column. -/
def pkMatchesRowId : Option Pk → String → Bool
  | some (.str s), rowId => rowId == s
  | _, _ => false

/-- A row of the connection store (columns used by the source: `id`, `conn_id`). -/
structure ConnectionRow where
  id : String
  conn_id : String
deriving DecidableEq, Repr

/-- A row of the dag-run store (columns used by the source: `id`, `dag_id`). -/
structure DagRunRow where
  id : String
  dag_id : String
deriving DecidableEq, Repr

/-- A row of the task-instance store (columns used by the source: `dag_id`, `task_id`,
`run_id`, `map_index`). -/
structure TaskInstanceRow where
  dag_id : String
  task_id : String
  run_id : String
  map_index : Int
deriving DecidableEq, Repr

/-- A row of the pool store (columns used by the source: `id`, `pool`). -/
structure PoolRow where
  id : String
  pool : String
deriving DecidableEq, Repr

/-- A row of the variable store (columns used by the source: `id`, `key`). -/
structure VariableRow where
  id : String
  key : String
deriving DecidableEq, Repr

/-- The SQLAlchemy session the resolvers query, modelled as in-memory row lists,
one per entity table touched by the source. -/
structure Stores where
  connections : List ConnectionRow
  dagruns : List DagRunRow
  taskInstances : List TaskInstanceRow
  pools : List PoolRow
  vars : List VariableRow
deriving Repr

/-- Resolver `get_connection_id`: falsy key resolves to `None` with no lookup;
otherwise `session.scalar(select(Connection).where(Connection.id == resource_pk)
.limit(1))` is the first matching row; a miss raises
`AirflowException("Connection not found")`; a hit yields `conn_id`. -/
def get_connection_id (st : Stores) (resource_pk : Option Pk) : Except PyErr (Option String) :=
  if pkIsFalsy resource_pk then .ok none
  else
    match st.connections.find? (fun c => pkMatchesRowId resource_pk c.id) with
    | some c => .ok (some c.conn_id)
    | none => .error (.airflowException "Connection not found")

/-- Resolver `get_dag_id_from_dagrun_id`: as `get_connection_id` but over the dag-run
store, raising `AirflowException("DagRun not found")` and yielding `dag_id`. -/
def get_dag_id_from_dagrun_id (st : Stores) (resource_pk : Option Pk) :
    Except PyErr (Option String) :=
  if pkIsFalsy resource_pk then .ok none
  else
    match st.dagruns.find? (fun d => pkMatchesRowId resource_pk d.id) with
    | some d => .ok (some d.dag_id)
    | none => .error (.airflowException "DagRun not found")

/-- The standard-library `json.loads` applied to the `resource_pk` text, modelled at
the granularity the task-instance resolver needs: a JSON-array payload decodes to its
element list; any other payload leads to a hard Python error before any lookup
(either a decode error, or a type/index error on the non-list value). -/
def json_loads : Pk → Except PyErr (List JVal)
  | .jsonArr xs => .ok xs
  | .str _ => .error .jsonError

/-- The list subscript `composite_pk[i]`: out of range raises `IndexError`. -/
def listIndex (xs : List JVal) (i : Nat) : Except PyErr JVal :=
  match xs.get? i with
  | some v => .ok v
  | none => .error .indexError

/-- The SQL comparison of a string column with a decoded JSON element. -/
def jvalEqStr : JVal → String → Bool
  | .str v, w => v == w
  | .int _, _ => false

/-- The SQL comparison `column >= element` for the integer `map_index` column:
true when the element is an integer at most the column value. -/
def jvalLeInt : JVal → Int → Bool
  | .int n, m => n ≤ m
  | .str _, _ => false

/-- The where-clause of the task-instance query: `TaskInstance.dag_id ==
composite_pk[0]`, `task_id == composite_pk[1]`, `run_id == composite_pk[2]`,
`map_index >= composite_pk[3]`. -/
def tiWhere (k0 k1 k2 k3 : JVal) (ti : TaskInstanceRow) : Bool :=
  jvalEqStr k0 ti.dag_id && jvalEqStr k1 ti.task_id && jvalEqStr k2 ti.run_id
    && jvalLeInt k3 ti.map_index

/-- Resolver `get_dag_id_from_task_instance`: falsy key resolves to `None`; otherwise
the payload is JSON-decoded and subscripted at 0..3 (each subscript may raise), then
`session.scalar(select(DagRun).where(<task-instance conditions>).limit(1))` runs.
Because the query selects from `DagRun` while all where-conditions constrain
`TaskInstance` columns, the two tables are cross-joined: some `DagRun` row is returned
whenever the dag-run store is nonempty and some task-instance row satisfies the
filter.  SQL fixes no row order under `LIMIT 1` without `ORDER BY`; the model commits
to the first row of the dag-run store.  An empty result raises
`AirflowException("Task instance not found")`; otherwise the returned row's `dag_id`
(a dag-run row's, not the matched task instance's) is yielded. -/
def get_dag_id_from_task_instance (st : Stores) (resource_pk : Option Pk) :
    Except PyErr (Option String) :=
  if pkIsFalsy resource_pk then .ok none
  else
    match resource_pk with
    | none => .ok none
    | some pk => do
      let composite_pk ← json_loads pk
      let k0 ← listIndex composite_pk 0
      let k1 ← listIndex composite_pk 1
      let k2 ← listIndex composite_pk 2
      let k3 ← listIndex composite_pk 3
      match st.dagruns, st.taskInstances.filter (tiWhere k0 k1 k2 k3) with
      | dr :: _, _ :: _ => .ok (some dr.dag_id)
      | _, _ => .error (.airflowException "Task instance not found")

/-- Resolver `get_pool_name`: as `get_connection_id` but over the pool store, raising
`AirflowException("Pool not found")` and yielding `pool`. -/
def get_pool_name (st : Stores) (resource_pk : Option Pk) : Except PyErr (Option String) :=
  if pkIsFalsy resource_pk then .ok none
  else
    match st.pools.find? (fun p => pkMatchesRowId resource_pk p.id) with
    | some p => .ok (some p.pool)
    | none => .error (.airflowException "Pool not found")

/-- Resolver `get_variable_key`: as `get_connection_id` but over the variable store,
yielding `key` on a hit.  The source raises `AirflowException("Connection not found")`
on a miss (the message names the wrong entity); the model reproduces it verbatim. -/
def get_variable_key (st : Stores) (resource_pk : Option Pk) : Except PyErr (Option String) :=
  if pkIsFalsy resource_pk then .ok none
  else
    match st.vars.find? (fun v => pkMatchesRowId resource_pk v.id) with
    | some v => .ok (some v.key)
    | none => .error (.airflowException "Connection not found")

/-- The `DagAccessEntity` enum values used by the source. -/
inductive DagAccessEntity where
  | AUDIT_LOG
  | CODE
  | DEPENDENCIES
  | RUN
  | SLA_MISS
  | TASK_INSTANCE
  | TASK_RESCHEDULE
  | XCOM
deriving DecidableEq, Repr

/-- The `AccessView` enum values used by the source. -/
inductive AccessView where
  | CLUSTER_ACTIVITY
  | DOCS
  | PLUGINS
  | JOBS
  | PROVIDERS
  | TRIGGERS
deriving DecidableEq, Repr

/-- `ConnectionDetails(conn_id=...)`. -/
structure ConnectionDetails where
  conn_id : Option String
deriving DecidableEq, Repr

/-- `DagDetails(id=...)`. -/
structure DagDetails where
  id : Option String
deriving DecidableEq, Repr

/-- `PoolDetails(name=...)`. -/
structure PoolDetails where
  name : Option String
deriving DecidableEq, Repr

/-- `VariableDetails(key=...)`. -/
structure VariableDetails where
  key : Option String
deriving DecidableEq, Repr

/-- A description of the auth-manager invocation a check performs, mirroring the
`is_authorized_*` API with the arguments the source passes (the user is supplied at
evaluation time, exactly as the lambdas forward their `user` parameter verbatim). -/
inductive BackendCall where
  | isAuthorizedDag (method : Method) (access_entity : Option DagAccessEntity)
      (details : Option DagDetails)
  | isAuthorizedView (access_view : AccessView)
  | isAuthorizedConfiguration (method : Method)
  | isAuthorizedConnection (method : Method) (details : ConnectionDetails)
  | isAuthorizedPool (method : Method) (details : PoolDetails)
  | isAuthorizedVariable (method : Method) (details : VariableDetails)
  | isAuthorizedDataset (method : Method)
  | isAuthorizedCustomView (fab_action_name : String) (fab_resource_name : String)
deriving DecidableEq, Repr

/-- What a successful check evaluation amounts to: either a single backend call whose
boolean is returned verbatim, or a boolean computed without consulting the backend
(the category-menu `any`). -/
inductive Outcome where
  | backend (call : BackendCall)
  | fixed (result : Bool)
deriving DecidableEq, Repr

/-- The pluggable auth manager, as the record of boolean policy functions the source
invokes. -/
structure AuthManager where
  is_authorized_dag : Method → Option DagAccessEntity → Option DagDetails → User → Bool
  is_authorized_view : AccessView → User → Bool
  is_authorized_configuration : Method → User → Bool
  is_authorized_connection : Method → ConnectionDetails → User → Bool
  is_authorized_pool : Method → PoolDetails → User → Bool
  is_authorized_variable : Method → VariableDetails → User → Bool
  is_authorized_dataset : Method → User → Bool
  is_authorized_custom_view : String → String → User → Bool

/-- Evaluate a backend-call description against the auth manager for a user. -/
def evalCall (am : AuthManager) (user : User) : BackendCall → Bool
  | .isAuthorizedDag m ae d => am.is_authorized_dag m ae d user
  | .isAuthorizedView v => am.is_authorized_view v user
  | .isAuthorizedConfiguration m => am.is_authorized_configuration m user
  | .isAuthorizedConnection m d => am.is_authorized_connection m d user
  | .isAuthorizedPool m d => am.is_authorized_pool m d user
  | .isAuthorizedVariable m d => am.is_authorized_variable m d user
  | .isAuthorizedDataset m => am.is_authorized_dataset m user
  | .isAuthorizedCustomView a r => am.is_authorized_custom_view a r user

/-- Evaluate an outcome to the boolean the Python check returns. -/
def evalOutcome (am : AuthManager) (user : User) : Outcome → Bool
  | .backend c => evalCall am user c
  | .fixed b => b

/-- The type of an entry of `_auth_manager_is_authorized_map`: the function takes the
FAB action name, the resource primary key and the user. -/
abbrev CheckFn := String → Option Pk → User → Except PyErr Outcome

/-- Dict entry for `RESOURCE_AUDIT_LOG`: `is_authorized_dag(method=methods[action],
access_entity=DagAccessEntity.AUDIT_LOG, user=user)`. -/
def check_audit_log : CheckFn := fun action _resource_pk _user => do
  let m ← methodsIndex action
  .ok (.backend (.isAuthorizedDag m (some .AUDIT_LOG) none))

/-- Dict entry for `RESOURCE_CLUSTER_ACTIVITY`:
`is_authorized_view(access_view=AccessView.CLUSTER_ACTIVITY, user=user)`. -/
def check_cluster_activity : CheckFn := fun _action _resource_pk _user =>
  .ok (.backend (.isAuthorizedView .CLUSTER_ACTIVITY))

/-- Dict entry for `RESOURCE_CONFIG`:
`is_authorized_configuration(method=methods[action], user=user)`. -/
def check_config : CheckFn := fun action _resource_pk _user => do
  let m ← methodsIndex action
  .ok (.backend (.isAuthorizedConfiguration m))

/-- Dict entry for `RESOURCE_CONNECTION`: `is_authorized_connection(method=
methods[action], details=ConnectionDetails(conn_id=get_connection_id(resource_pk)),
user=user)`; the keyword arguments evaluate left to right, so the dict subscript
precedes the resolver. -/
def check_connection (st : Stores) : CheckFn := fun action resource_pk _user => do
  let m ← methodsIndex action
  let conn_id ← get_connection_id st resource_pk
  .ok (.backend (.isAuthorizedConnection m ⟨conn_id⟩))

/-- Dict entry for `RESOURCE_DAG`: `is_authorized_dag(method=methods[action],
user=user)` (no access entity, no details). -/
def check_dag : CheckFn := fun action _resource_pk _user => do
  let m ← methodsIndex action
  .ok (.backend (.isAuthorizedDag m none none))

/-- Dict entry for `RESOURCE_DAG_CODE`: `is_authorized_dag(method=methods[action],
access_entity=DagAccessEntity.CODE, user=user)`. -/
def check_dag_code : CheckFn := fun action _resource_pk _user => do
  let m ← methodsIndex action
  .ok (.backend (.isAuthorizedDag m (some .CODE) none))

/-- Dict entry for `RESOURCE_DAG_DEPENDENCIES`: `is_authorized_dag(method=
methods[action], access_entity=DagAccessEntity.DEPENDENCIES, user=user)`. -/
def check_dag_dependencies : CheckFn := fun action _resource_pk _user => do
  let m ← methodsIndex action
  .ok (.backend (.isAuthorizedDag m (some .DEPENDENCIES) none))

/-- Dict entry for `RESOURCE_DAG_RUN`: `is_authorized_dag(method=methods[action],
access_entity=DagAccessEntity.RUN,
details=DagDetails(id=get_dag_id_from_dagrun_id(resource_pk)), user=user)`. -/
def check_dag_run (st : Stores) : CheckFn := fun action resource_pk _user => do
  let m ← methodsIndex action
  let did ← get_dag_id_from_dagrun_id st resource_pk
  .ok (.backend (.isAuthorizedDag m (some .RUN) (some ⟨did⟩)))

/-- Dict entry for `RESOURCE_DATASET`: `is_authorized_dataset(method=methods[action],
user=user)`. -/
def check_dataset : CheckFn := fun action _resource_pk _user => do
  let m ← methodsIndex action
  .ok (.backend (.isAuthorizedDataset m))

/-- Dict entry for `RESOURCE_DOCS`: `is_authorized_view(access_view=AccessView.DOCS,
user=user)`; action and primary key are ignored. -/
def check_docs : CheckFn := fun _action _resource_pk _user =>
  .ok (.backend (.isAuthorizedView .DOCS))

/-- Dict entry for `RESOURCE_PLUGIN`:
`is_authorized_view(access_view=AccessView.PLUGINS, user=user)`. -/
def check_plugin : CheckFn := fun _action _resource_pk _user =>
  .ok (.backend (.isAuthorizedView .PLUGINS))

/-- Dict entry for `RESOURCE_JOB`: `is_authorized_view(access_view=AccessView.JOBS,
user=user)`. -/
def check_job : CheckFn := fun _action _resource_pk _user =>
  .ok (.backend (.isAuthorizedView .JOBS))

/-- Dict entry for `RESOURCE_POOL`: `is_authorized_pool(method=methods[action],
details=PoolDetails(name=get_pool_name(resource_pk)), user=user)`. -/
def check_pool (st : Stores) : CheckFn := fun action resource_pk _user => do
  let m ← methodsIndex action
  let p ← get_pool_name st resource_pk
  .ok (.backend (.isAuthorizedPool m ⟨p⟩))

/-- Dict entry for `RESOURCE_PROVIDER`:
`is_authorized_view(access_view=AccessView.PROVIDERS, user=user)`. -/
def check_provider : CheckFn := fun _action _resource_pk _user =>
  .ok (.backend (.isAuthorizedView .PROVIDERS))

/-- Dict entry for `RESOURCE_SLA_MISS`: `is_authorized_dag(method=methods[action],
access_entity=DagAccessEntity.SLA_MISS, user=user)`. -/
def check_sla_miss : CheckFn := fun action _resource_pk _user => do
  let m ← methodsIndex action
  .ok (.backend (.isAuthorizedDag m (some .SLA_MISS) none))

/-- Dict entry for `RESOURCE_TASK_INSTANCE`: `is_authorized_dag(method=
methods[action], access_entity=DagAccessEntity.TASK_INSTANCE,
details=DagDetails(id=get_dag_id_from_task_instance(resource_pk)), user=user)`. -/
def check_task_instance (st : Stores) : CheckFn := fun action resource_pk _user => do
  let m ← methodsIndex action
  let did ← get_dag_id_from_task_instance st resource_pk
  .ok (.backend (.isAuthorizedDag m (some .TASK_INSTANCE) (some ⟨did⟩)))

/-- Dict entry for `RESOURCE_TASK_RESCHEDULE`: `is_authorized_dag(method=
methods[action], access_entity=DagAccessEntity.TASK_RESCHEDULE, user=user)`. -/
def check_task_reschedule : CheckFn := fun action _resource_pk _user => do
  let m ← methodsIndex action
  .ok (.backend (.isAuthorizedDag m (some .TASK_RESCHEDULE) none))

/-- Dict entry for `RESOURCE_TRIGGER`:
`is_authorized_view(access_view=AccessView.TRIGGERS, user=user)`. -/
def check_trigger : CheckFn := fun _action _resource_pk _user =>
  .ok (.backend (.isAuthorizedView .TRIGGERS))

/-- Dict entry for `RESOURCE_VARIABLE`: `is_authorized_variable(method=
methods[action], details=VariableDetails(key=get_variable_key(resource_pk)),
user=user)`. -/
def check_variable (st : Stores) : CheckFn := fun action resource_pk _user => do
  let m ← methodsIndex action
  let k ← get_variable_key st resource_pk
  .ok (.backend (.isAuthorizedVariable m ⟨k⟩))

/-- Dict entry for `RESOURCE_XCOM`: `is_authorized_dag(method=methods[action],
access_entity=DagAccessEntity.XCOM, user=user)`. -/
def check_xcom : CheckFn := fun action _resource_pk _user => do
  let m ← methodsIndex action
  .ok (.backend (.isAuthorizedDag m (some .XCOM) none))

/-- The memoized dict `_auth_manager_is_authorized_map`, as the lookup function
`dict.get`: exact string-key dispatch over the twenty-one entries of the source dict,
each entry closing over the session (`Stores`). -/
def _auth_manager_is_authorized_map (st : Stores) (name : String) : Option CheckFn :=
  if name == RESOURCE_AUDIT_LOG then some check_audit_log
  else if name == RESOURCE_CLUSTER_ACTIVITY then some check_cluster_activity
  else if name == RESOURCE_CONFIG then some check_config
  else if name == RESOURCE_CONNECTION then some (check_connection st)
  else if name == RESOURCE_DAG then some check_dag
  else if name == RESOURCE_DAG_CODE then some check_dag_code
  else if name == RESOURCE_DAG_DEPENDENCIES then some check_dag_dependencies
  else if name == RESOURCE_DAG_RUN then some (check_dag_run st)
  else if name == RESOURCE_DATASET then some check_dataset
  else if name == RESOURCE_DOCS then some check_docs
  else if name == RESOURCE_PLUGIN then some check_plugin
  else if name == RESOURCE_JOB then some check_job
  else if name == RESOURCE_POOL then some (check_pool st)
  else if name == RESOURCE_PROVIDER then some check_provider
  else if name == RESOURCE_SLA_MISS then some check_sla_miss
  else if name == RESOURCE_TASK_INSTANCE then some (check_task_instance st)
  else if name == RESOURCE_TASK_RESCHEDULE then some check_task_reschedule
  else if name == RESOURCE_TRIGGER then some check_trigger
  else if name == RESOURCE_VARIABLE then some (check_variable st)
  else if name == RESOURCE_XCOM then some check_xcom
  else none

/-- Truthiness of `_get_auth_manager_is_authorized_method(name)` as tested by the
`any(...)` generator of `_is_authorized_category_menu`: the call returns a callable
(truthy) exactly when the name is a key of the dict or one of the three category
names, and `None` (falsy) otherwise — the callable is never invoked there.  The
lemma `get_auth_manager_method_isSome` certifies this against the dispatch function
itself. -/
def method_exists (st : Stores) (name : String) : Bool :=
  (_auth_manager_is_authorized_map st name).isSome
    || (name == RESOURCE_DOCS_MENU || name == RESOURCE_ADMIN_MENU
        || name == RESOURCE_BROWSE_MENU)

/-- The application environment the security manager runs in: the session-backed
stores, the auth manager singleton, the menu tree (`appbuilder.menu.find(category)
.childs`, as the list of child resource names per category) and the ambient request
user `g.user`. -/
structure Env where
  stores : Stores
  am : AuthManager
  menu : String → List String
  gUser : User

/-- `_is_authorized_category_menu(category)`: returns the lambda
`lambda action, resource_pk, user: any(self._get_auth_manager_is_authorized_method(
fab_resource_name=item) for item in items)` where `items` is the set of child names
of the category.  The generator tests only the truthiness of each returned callable
(see `method_exists`); the set comprehension is modelled as the child-name list,
which `any` treats identically. -/
def _is_authorized_category_menu (env : Env) (category : String) : CheckFn :=
  fun _action _resource_pk _user =>
    .ok (.fixed ((env.menu category).any (fun item => method_exists env.stores item)))

/-- `_get_auth_manager_is_authorized_method(fab_resource_name)`: the dict lookup,
then the category fallback for the Docs, Admin and Browse menu names, else `None`. -/
def _get_auth_manager_is_authorized_method (env : Env) (fab_resource_name : String) :
    Option CheckFn :=
  match _auth_manager_is_authorized_map env.stores fab_resource_name with
  | some m => some m
  | none =>
    if fab_resource_name == RESOURCE_DOCS_MENU || fab_resource_name == RESOURCE_ADMIN_MENU
        || fab_resource_name == RESOURCE_BROWSE_MENU then
      some (_is_authorized_category_menu env fab_resource_name)
    else
      none

/-- The `if not user: user = g.user` substitution at the top of `has_access`
(modelled for the absent case; all users of the model are truthy strings). -/
def resolveUser (env : Env) (user : Option User) : User :=
  match user with
  | some u => u
  | none => env.gUser

/-- `has_access`, factored through the description of the evaluation it performs:
a registry or category hit invokes the returned check function on the action, primary
key and resolved user; a miss translates `menu_access` to `can_read` and produces the
generic `is_authorized_custom_view` call on the (otherwise unmodified) action and
resource names.  Exceptions raised by a check propagate. -/
def has_access_outcome (env : Env) (action_name resource_name : String)
    (user : Option User) (resource_pk : Option Pk) : Except PyErr Outcome :=
  match _get_auth_manager_is_authorized_method env resource_name with
  | some is_authorized_method =>
      is_authorized_method action_name resource_pk (resolveUser env user)
  | none =>
      let a := if action_name == ACTION_CAN_ACCESS_MENU then ACTION_CAN_READ else action_name
      .ok (.backend (.isAuthorizedCustomView a resource_name))

/-- `has_access(action_name, resource_name, user, resource_pk)`: the boolean the
source returns, obtained by evaluating the outcome of `has_access_outcome` against
the auth manager for the resolved user (every check forwards its `user` parameter to
the backend verbatim, so evaluation with the same resolved user is exact). -/
def has_access (env : Env) (action_name resource_name : String)
    (user : Option User) (resource_pk : Option Pk) : Except PyErr Bool :=
  (has_access_outcome env action_name resource_name user resource_pk).map
    (evalOutcome env.am (resolveUser env user))

/-- Whether an outcome evaluates the backend with the read action: a backend call
whose method argument is `GET`, or a custom-view call carrying the read action name.
A static view call carries no action at all. -/
def usesReadAction : Outcome → Bool
  | .backend (.isAuthorizedDag .GET _ _) => true
  | .backend (.isAuthorizedConfiguration .GET) => true
  | .backend (.isAuthorizedConnection .GET _) => true
  | .backend (.isAuthorizedPool .GET _) => true
  | .backend (.isAuthorizedVariable .GET _) => true
  | .backend (.isAuthorizedDataset .GET) => true
  | .backend (.isAuthorizedCustomView a _) => a == ACTION_CAN_READ
  | _ => false

/-- Empty stores: every table has no rows. -/
def stores0 : Stores := ⟨[], [], [], [], []⟩

/-- An auth manager that denies every request on every API. -/
def denyAll : AuthManager :=
  ⟨fun _ _ _ _ => false, fun _ _ => false, fun _ _ => false, fun _ _ _ => false,
   fun _ _ _ => false, fun _ _ _ => false, fun _ _ => false, fun _ _ _ => false⟩

/-- Environment with empty stores, the all-denying auth manager and an empty menu. -/
def env0 : Env := ⟨stores0, denyAll, fun _ => [], "u"⟩

/-- Environment where the Browse menu category has the single child Jobs and the auth
manager denies every request. -/
def env1 : Env :=
  ⟨stores0, denyAll, fun c => if c == RESOURCE_BROWSE_MENU then [RESOURCE_JOB] else [], "u"⟩

/-- An auth manager whose custom-view check grants exactly when it receives the
menu-access action name, and denies everything else. -/
def amMenuOnly : AuthManager :=
  ⟨fun _ _ _ _ => false, fun _ _ => false, fun _ _ => false, fun _ _ _ => false,
   fun _ _ _ => false, fun _ _ _ => false, fun _ _ => false,
   fun a _ _ => a == ACTION_CAN_ACCESS_MENU⟩

/-- Environment built on `amMenuOnly`, empty stores and an empty menu. -/
def env2 : Env := ⟨stores0, amMenuOnly, fun _ => [], "u"⟩

/-- Stores holding one task instance of dag `w1` and one dag-run row whose `dag_id`
is the unrelated `w2`. -/
def stores4 : Stores := ⟨[], [⟨"5", "w2"⟩], [⟨"w1", "t1", "r1", 0⟩], [], []⟩

/-- Stores holding one task instance with `map_index` 7 and one dag-run row of the
unrelated dag `wB`. -/
def stores9 : Stores := ⟨[], [⟨"1", "wB"⟩], [⟨"wA", "t", "r", 7⟩], [], []⟩

/-- The truthiness lemma behind `method_exists`: the method returned by
`_get_auth_manager_is_authorized_method` is non-`None` exactly when `method_exists`
says so. -/
theorem get_auth_manager_method_isSome (env : Env) (name : String) :
    (_get_auth_manager_is_authorized_method env name).isSome = method_exists env.stores name := by
  unfold _get_auth_manager_is_authorized_method method_exists
  cases h : _auth_manager_is_authorized_map env.stores name with
  | some m => simp
  | none =>
    simp only [Option.isSome_none, Bool.false_or]
    by_cases hc : (name == RESOURCE_DOCS_MENU || name == RESOURCE_ADMIN_MENU
        || name == RESOURCE_BROWSE_MENU) = true
    · simp [hc]
    · simp [hc]

/-- C1 (code behaviour at the failing input): with the Browse menu category having
the single child Jobs — a registered resource — and an auth manager that denies every
request, the child's own check denies, yet the category check returns true: the
category lambda tests only the existence of a child check function and never invokes
it, so the result is not "true iff the user is authorized for at least one child". -/
theorem category_menu_true_with_all_children_denied :
    has_access env1 ACTION_CAN_ACCESS_MENU RESOURCE_BROWSE_MENU none none = .ok true
    ∧ has_access env1 ACTION_CAN_READ RESOURCE_JOB none none = .ok false :=
  ⟨rfl, rfl⟩

/-- C2 counterexample: for the unknown resource "List Users" (no registry key, no
category match) and the menu-access action, `has_access` returns the custom-view
result for the translated action (false, under an auth manager granting exactly the
menu-access action name), while the backend custom-view check on the caller's
unmodified action grants — so the returned result is not that of the check on the
untranslated action name. -/
theorem custom_view_fallback_menu_access_translated_counterexample :
    has_access env2 ACTION_CAN_ACCESS_MENU "List Users" none none = .ok false
    ∧ env2.am.is_authorized_custom_view ACTION_CAN_ACCESS_MENU "List Users" env2.gUser = true :=
  ⟨rfl, rfl⟩

/-- C2 amended: for every resource name that is neither a registry key nor a category
name, `has_access` delegates to the backend custom-view check passing the resource
name unmodified and the action name unmodified unless it is the menu-access action,
which is translated to the read action; the check's boolean result is returned. -/
theorem custom_view_fallback_passes_untranslated_except_menu_access
    (env : Env) (a r : String) (u : Option User) (pk : Option Pk)
    (h1 : (_auth_manager_is_authorized_map env.stores r).isNone = true)
    (h2 : (r == RESOURCE_DOCS_MENU) = false)
    (h3 : (r == RESOURCE_ADMIN_MENU) = false)
    (h4 : (r == RESOURCE_BROWSE_MENU) = false) :
    has_access env a r u pk
      = .ok (env.am.is_authorized_custom_view
          (if a == ACTION_CAN_ACCESS_MENU then ACTION_CAN_READ else a) r (resolveUser env u))
    ∧ ((a == ACTION_CAN_ACCESS_MENU) = false →
        has_access env a r u pk
          = .ok (env.am.is_authorized_custom_view a r (resolveUser env u))) := by
  have hm : _auth_manager_is_authorized_map env.stores r = none :=
    Option.isNone_iff_eq_none.mp h1
  constructor
  · simp [has_access, has_access_outcome, _get_auth_manager_is_authorized_method, hm,
      h2, h3, h4, evalOutcome, evalCall, Except.map]
  · intro ha
    simp [has_access, has_access_outcome, _get_auth_manager_is_authorized_method, hm,
      h2, h3, h4, ha, evalOutcome, evalCall, Except.map]

/-- C2 witness: the amended fallback behaviour at a concrete input with a
non-menu-access action. -/
theorem custom_view_fallback_passes_untranslated_except_menu_access_witness :
    has_access env2 ACTION_CAN_EDIT "List Users" none none
      = .ok (env2.am.is_authorized_custom_view ACTION_CAN_EDIT "List Users"
          (resolveUser env2 none)) :=
  (custom_view_fallback_passes_untranslated_except_menu_access env2 ACTION_CAN_EDIT
    "List Users" none none rfl rfl rfl rfl).2 rfl

/-- C3: for each entity-scoped resource (Connection, DAG Run, Task Instance, Pool,
Variable), a non-null instance key that matches no row of the corresponding store
makes the check raise the entity-not-found `AirflowException` as a hard error — the
outcome-level equation shows no backend call is ever produced, and the `has_access`
equation (which holds for the arbitrary auth manager inside `env`) shows the error
propagates instead of becoming a boolean. -/
theorem entity_not_found_raises_and_skips_backend
    (env : Env) (a : String) (u : Option User) (m : Method)
    (hm : fab_action_methods a = some m)
    (s : String) (hs : (s == "") = false)
    (k0 k1 k2 : String) (k3 : Int) :
    (env.stores.connections.find? (fun c => pkMatchesRowId (some (.str s)) c.id) = none →
      has_access_outcome env a RESOURCE_CONNECTION u (some (.str s))
        = .error (.airflowException "Connection not found")
      ∧ has_access env a RESOURCE_CONNECTION u (some (.str s))
        = .error (.airflowException "Connection not found"))
    ∧ (env.stores.dagruns.find? (fun d => pkMatchesRowId (some (.str s)) d.id) = none →
      has_access_outcome env a RESOURCE_DAG_RUN u (some (.str s))
        = .error (.airflowException "DagRun not found")
      ∧ has_access env a RESOURCE_DAG_RUN u (some (.str s))
        = .error (.airflowException "DagRun not found"))
    ∧ (env.stores.taskInstances.filter (tiWhere (.str k0) (.str k1) (.str k2) (.int k3)) = [] →
      has_access_outcome env a RESOURCE_TASK_INSTANCE u
          (some (.jsonArr [.str k0, .str k1, .str k2, .int k3]))
        = .error (.airflowException "Task instance not found")
      ∧ has_access env a RESOURCE_TASK_INSTANCE u
          (some (.jsonArr [.str k0, .str k1, .str k2, .int k3]))
        = .error (.airflowException "Task instance not found"))
    ∧ (env.stores.pools.find? (fun p => pkMatchesRowId (some (.str s)) p.id) = none →
      has_access_outcome env a RESOURCE_POOL u (some (.str s))
        = .error (.airflowException "Pool not found")
      ∧ has_access env a RESOURCE_POOL u (some (.str s))
        = .error (.airflowException "Pool not found"))
    ∧ (env.stores.vars.find? (fun v => pkMatchesRowId (some (.str s)) v.id) = none →
      has_access_outcome env a RESOURCE_VARIABLE u (some (.str s))
        = .error (.airflowException "Connection not found")
      ∧ has_access env a RESOURCE_VARIABLE u (some (.str s))
        = .error (.airflowException "Connection not found")) := by
  have hg1 : _get_auth_manager_is_authorized_method env RESOURCE_CONNECTION
      = some (check_connection env.stores) := rfl
  have hg2 : _get_auth_manager_is_authorized_method env RESOURCE_DAG_RUN
      = some (check_dag_run env.stores) := rfl
  have hg3 : _get_auth_manager_is_authorized_method env RESOURCE_TASK_INSTANCE
      = some (check_task_instance env.stores) := rfl
  have hg4 : _get_auth_manager_is_authorized_method env RESOURCE_POOL
      = some (check_pool env.stores) := rfl
  have hg5 : _get_auth_manager_is_authorized_method env RESOURCE_VARIABLE
      = some (check_variable env.stores) := rfl
  refine ⟨fun h => ?_, fun h => ?_, fun h => ?_, fun h => ?_, fun h => ?_⟩
  · constructor
    · simp [has_access_outcome, hg1, check_connection, methodsIndex, hm,
        get_connection_id, pkIsFalsy, hs, h, Bind.bind, Except.bind]
    · simp [has_access, has_access_outcome, hg1, check_connection, methodsIndex, hm,
        get_connection_id, pkIsFalsy, hs, h, Except.map, Bind.bind, Except.bind]
  · constructor
    · simp [has_access_outcome, hg2, check_dag_run, methodsIndex, hm,
        get_dag_id_from_dagrun_id, pkIsFalsy, hs, h, Bind.bind, Except.bind]
    · simp [has_access, has_access_outcome, hg2, check_dag_run, methodsIndex, hm,
        get_dag_id_from_dagrun_id, pkIsFalsy, hs, h, Except.map, Bind.bind, Except.bind]
  · constructor
    · simp [has_access_outcome, hg3, check_task_instance, methodsIndex, hm,
        get_dag_id_from_task_instance, pkIsFalsy, json_loads, listIndex, h, Bind.bind,
        Except.bind]
    · simp [has_access, has_access_outcome, hg3, check_task_instance, methodsIndex, hm,
        get_dag_id_from_task_instance, pkIsFalsy, json_loads, listIndex, h, Except.map,
        Bind.bind, Except.bind]
  · constructor
    · simp [has_access_outcome, hg4, check_pool, methodsIndex, hm,
        get_pool_name, pkIsFalsy, hs, h, Bind.bind, Except.bind]
    · simp [has_access, has_access_outcome, hg4, check_pool, methodsIndex, hm,
        get_pool_name, pkIsFalsy, hs, h, Except.map, Bind.bind, Except.bind]
  · constructor
    · simp [has_access_outcome, hg5, check_variable, methodsIndex, hm,
        get_variable_key, pkIsFalsy, hs, h, Bind.bind, Except.bind]
    · simp [has_access, has_access_outcome, hg5, check_variable, methodsIndex, hm,
        get_variable_key, pkIsFalsy, hs, h, Except.map, Bind.bind, Except.bind]

/-- C3 witness: the five entity-not-found errors at concrete inputs over empty
stores. -/
theorem entity_not_found_raises_and_skips_backend_witness :
    has_access env0 ACTION_CAN_READ RESOURCE_CONNECTION none (some (.str "1"))
      = .error (.airflowException "Connection not found")
    ∧ has_access env0 ACTION_CAN_READ RESOURCE_DAG_RUN none (some (.str "1"))
      = .error (.airflowException "DagRun not found")
    ∧ has_access env0 ACTION_CAN_READ RESOURCE_TASK_INSTANCE none
        (some (.jsonArr [.str "d", .str "t", .str "r", .int 0]))
      = .error (.airflowException "Task instance not found")
    ∧ has_access env0 ACTION_CAN_READ RESOURCE_POOL none (some (.str "1"))
      = .error (.airflowException "Pool not found")
    ∧ has_access env0 ACTION_CAN_READ RESOURCE_VARIABLE none (some (.str "1"))
      = .error (.airflowException "Connection not found") := by
  have h := entity_not_found_raises_and_skips_backend env0 ACTION_CAN_READ none .GET rfl
    "1" rfl "d" "t" "r" 0
  exact ⟨(h.1 rfl).2, (h.2.1 rfl).2, (h.2.2.1 rfl).2, (h.2.2.2.1 rfl).2, (h.2.2.2.2 rfl).2⟩

/-- C4 (code behaviour at the failing input): the task-instance resolver, given the
4-element key of the stored task instance of dag `w1`, resolves to `w2` — the
`dag_id` of the only dag-run row, produced by the cross join of `select(DagRun)` with
the task-instance filter — not to the owning workflow id `w1`; and a 3-element key
raises the hard `IndexError` (the malformed-key part of the claim, which the code
meets). -/
theorem task_instance_resolver_wrong_table_and_short_key_error :
    get_dag_id_from_task_instance stores4
        (some (.jsonArr [.str "w1", .str "t1", .str "r1", .int 0])) = .ok (some "w2")
    ∧ stores4.taskInstances = [⟨"w1", "t1", "r1", 0⟩]
    ∧ ("w2" : String) ≠ "w1"
    ∧ get_dag_id_from_task_instance stores4
        (some (.jsonArr [.str "w1", .str "t1", .str "r1"])) = .error .indexError :=
  ⟨rfl, rfl, by decide, rfl⟩

/-- C5: every instance-key resolver returns `None` on a null key for every store (so
no lookup can influence the result), and the entity-scoped checks then proceed,
producing the backend call with a null natural key in the details record. -/
theorem null_instance_key_resolvers_return_none_and_check_proceeds
    (env : Env) (a : String) (u : Option User) (m : Method)
    (hm : fab_action_methods a = some m) :
    (∀ st : Stores, get_connection_id st none = .ok none
      ∧ get_dag_id_from_dagrun_id st none = .ok none
      ∧ get_dag_id_from_task_instance st none = .ok none
      ∧ get_pool_name st none = .ok none
      ∧ get_variable_key st none = .ok none)
    ∧ has_access_outcome env a RESOURCE_CONNECTION u none
        = .ok (.backend (.isAuthorizedConnection m ⟨none⟩))
    ∧ has_access_outcome env a RESOURCE_DAG_RUN u none
        = .ok (.backend (.isAuthorizedDag m (some .RUN) (some ⟨none⟩)))
    ∧ has_access_outcome env a RESOURCE_TASK_INSTANCE u none
        = .ok (.backend (.isAuthorizedDag m (some .TASK_INSTANCE) (some ⟨none⟩)))
    ∧ has_access_outcome env a RESOURCE_POOL u none
        = .ok (.backend (.isAuthorizedPool m ⟨none⟩))
    ∧ has_access_outcome env a RESOURCE_VARIABLE u none
        = .ok (.backend (.isAuthorizedVariable m ⟨none⟩)) := by
  have hg1 : _get_auth_manager_is_authorized_method env RESOURCE_CONNECTION
      = some (check_connection env.stores) := rfl
  have hg2 : _get_auth_manager_is_authorized_method env RESOURCE_DAG_RUN
      = some (check_dag_run env.stores) := rfl
  have hg3 : _get_auth_manager_is_authorized_method env RESOURCE_TASK_INSTANCE
      = some (check_task_instance env.stores) := rfl
  have hg4 : _get_auth_manager_is_authorized_method env RESOURCE_POOL
      = some (check_pool env.stores) := rfl
  have hg5 : _get_auth_manager_is_authorized_method env RESOURCE_VARIABLE
      = some (check_variable env.stores) := rfl
  refine ⟨fun st => ⟨rfl, rfl, rfl, rfl, rfl⟩, ?_, ?_, ?_, ?_, ?_⟩
  · simp [has_access_outcome, hg1, check_connection, methodsIndex, hm,
      get_connection_id, pkIsFalsy, Bind.bind, Except.bind]
  · simp [has_access_outcome, hg2, check_dag_run, methodsIndex, hm,
      get_dag_id_from_dagrun_id, pkIsFalsy, Bind.bind, Except.bind]
  · simp [has_access_outcome, hg3, check_task_instance, methodsIndex, hm,
      get_dag_id_from_task_instance, pkIsFalsy, Bind.bind, Except.bind]
  · simp [has_access_outcome, hg4, check_pool, methodsIndex, hm,
      get_pool_name, pkIsFalsy, Bind.bind, Except.bind]
  · simp [has_access_outcome, hg5, check_variable, methodsIndex, hm,
      get_variable_key, pkIsFalsy, Bind.bind, Except.bind]

/-- C5 witness: the null-key behaviour at a concrete store and resource. -/
theorem null_instance_key_resolvers_witness :
    get_connection_id stores0 none = .ok none
    ∧ has_access_outcome env0 ACTION_CAN_READ RESOURCE_CONNECTION none none
        = .ok (.backend (.isAuthorizedConnection .GET ⟨none⟩)) :=
  ⟨((null_instance_key_resolvers_return_none_and_check_proceeds env0 ACTION_CAN_READ
      none .GET rfl).1 stores0).1,
   (null_instance_key_resolvers_return_none_and_check_proceeds env0 ACTION_CAN_READ
      none .GET rfl).2.1⟩

/-- C6 counterexample: at the concrete input (menu-access action, Docs resource) the
evaluation is the static docs-view backend call, which carries no action at all — in
particular the backend is not evaluated with the read action, refuting the claim as
stated. -/
theorem docs_menu_access_carries_no_read_action_counterexample :
    has_access_outcome env0 ACTION_CAN_ACCESS_MENU RESOURCE_DOCS none none
      = .ok (.backend (.isAuthorizedView .DOCS))
    ∧ usesReadAction (.backend (.isAuthorizedView .DOCS)) = false :=
  ⟨rfl, rfl⟩

/-- C6 amended: calling `has_access` with the menu-access action on the Docs resource
asks the backend the static docs-view visibility question; the action name is ignored
entirely (neither read nor menu-access is part of the backend call), so the result
coincides with that of the read action. -/
theorem docs_check_ignores_action_and_asks_static_view (env : Env) (u : Option User)
    (pk : Option Pk) :
    has_access_outcome env ACTION_CAN_ACCESS_MENU RESOURCE_DOCS u pk
      = .ok (.backend (.isAuthorizedView .DOCS))
    ∧ has_access env ACTION_CAN_ACCESS_MENU RESOURCE_DOCS u pk
      = has_access env ACTION_CAN_READ RESOURCE_DOCS u pk :=
  ⟨rfl, rfl⟩

/-- C7: each view-scoped resource (Docs, Plugins, Jobs, Providers, Triggers, Cluster
Activity) evaluates to the static is-view-visible backend call for its view kind, for
every environment, action, user and instance key, and its result is the same for any
two instance keys. -/
theorem view_scoped_checks_ignore_instance_key (env : Env) (a : String) (u : Option User)
    (k1 k2 : Option Pk) :
    (has_access_outcome env a RESOURCE_DOCS u k1 = .ok (.backend (.isAuthorizedView .DOCS))
      ∧ has_access env a RESOURCE_DOCS u k1 = has_access env a RESOURCE_DOCS u k2)
    ∧ (has_access_outcome env a RESOURCE_PLUGIN u k1 = .ok (.backend (.isAuthorizedView .PLUGINS))
      ∧ has_access env a RESOURCE_PLUGIN u k1 = has_access env a RESOURCE_PLUGIN u k2)
    ∧ (has_access_outcome env a RESOURCE_JOB u k1 = .ok (.backend (.isAuthorizedView .JOBS))
      ∧ has_access env a RESOURCE_JOB u k1 = has_access env a RESOURCE_JOB u k2)
    ∧ (has_access_outcome env a RESOURCE_PROVIDER u k1
        = .ok (.backend (.isAuthorizedView .PROVIDERS))
      ∧ has_access env a RESOURCE_PROVIDER u k1 = has_access env a RESOURCE_PROVIDER u k2)
    ∧ (has_access_outcome env a RESOURCE_TRIGGER u k1
        = .ok (.backend (.isAuthorizedView .TRIGGERS))
      ∧ has_access env a RESOURCE_TRIGGER u k1 = has_access env a RESOURCE_TRIGGER u k2)
    ∧ (has_access_outcome env a RESOURCE_CLUSTER_ACTIVITY u k1
        = .ok (.backend (.isAuthorizedView .CLUSTER_ACTIVITY))
      ∧ has_access env a RESOURCE_CLUSTER_ACTIVITY u k1
        = has_access env a RESOURCE_CLUSTER_ACTIVITY u k2) :=
  ⟨⟨rfl, rfl⟩, ⟨rfl, rfl⟩, ⟨rfl, rfl⟩, ⟨rfl, rfl⟩, ⟨rfl, rfl⟩, ⟨rfl, rfl⟩⟩

/-- C8: for each of the three menu categories, the check's result is the fixed
boolean "some child name has a registered check function or is itself a category
name" (`method_exists` over the menu children) — an expression free of the action,
user, instance key and auth manager — and the result is therefore identical across
any two actions, users and instance keys. -/
theorem category_menu_result_depends_only_on_registered_children (env : Env)
    (a1 a2 : String) (u1 u2 : Option User) (pk1 pk2 : Option Pk) :
    (has_access env a1 RESOURCE_BROWSE_MENU u1 pk1
        = .ok ((env.menu RESOURCE_BROWSE_MENU).any (fun i => method_exists env.stores i))
      ∧ has_access env a1 RESOURCE_BROWSE_MENU u1 pk1
        = has_access env a2 RESOURCE_BROWSE_MENU u2 pk2)
    ∧ (has_access env a1 RESOURCE_ADMIN_MENU u1 pk1
        = .ok ((env.menu RESOURCE_ADMIN_MENU).any (fun i => method_exists env.stores i))
      ∧ has_access env a1 RESOURCE_ADMIN_MENU u1 pk1
        = has_access env a2 RESOURCE_ADMIN_MENU u2 pk2)
    ∧ (has_access env a1 RESOURCE_DOCS_MENU u1 pk1
        = .ok ((env.menu RESOURCE_DOCS_MENU).any (fun i => method_exists env.stores i))
      ∧ has_access env a1 RESOURCE_DOCS_MENU u1 pk1
        = has_access env a2 RESOURCE_DOCS_MENU u2 pk2) :=
  ⟨⟨rfl, rfl⟩, ⟨rfl, rfl⟩, ⟨rfl, rfl⟩⟩

/-- C9: the task-instance lookup treats the fourth key component as a lower bound —
any stored task instance whose `map_index` is at least the given value satisfies the
filter — and on a hit the resolver returns the `dag_id` of the first row of the
dag-run store (the cross-joined `select(DagRun)` table), not a field of the matched
task instance. -/
theorem task_instance_lookup_map_index_lower_bound_and_dagrun_projection
    (st : Stores) (k0 k1 k2 : String) (k3 : Int)
    (dr : DagRunRow) (drs : List DagRunRow) (hdr : st.dagruns = dr :: drs)
    (ti : TaskInstanceRow) (hmem : ti ∈ st.taskInstances)
    (h0 : ti.dag_id = k0) (h1 : ti.task_id = k1) (h2 : ti.run_id = k2)
    (h3 : k3 ≤ ti.map_index) :
    get_dag_id_from_task_instance st (some (.jsonArr [.str k0, .str k1, .str k2, .int k3]))
      = .ok (some dr.dag_id) := by
  have hP : tiWhere (.str k0) (.str k1) (.str k2) (.int k3) ti = true := by
    simp [tiWhere, jvalEqStr, jvalLeInt, h0, h1, h2, h3]
  have hne : st.taskInstances.filter (tiWhere (.str k0) (.str k1) (.str k2) (.int k3)) ≠ [] := by
    intro hnil
    have hmf : ti ∈ st.taskInstances.filter (tiWhere (.str k0) (.str k1) (.str k2) (.int k3)) :=
      List.mem_filter.mpr ⟨hmem, hP⟩
    rw [hnil] at hmf
    exact absurd hmf (List.not_mem_nil ti)
  cases hf : st.taskInstances.filter (tiWhere (.str k0) (.str k1) (.str k2) (.int k3)) with
  | nil => exact absurd hf hne
  | cons x xs =>
    simp [get_dag_id_from_task_instance, pkIsFalsy, json_loads, listIndex,
      Bind.bind, Except.bind, hdr, hf]

/-- C9 witness: a task instance with `map_index` 7 matches the key component 2 (a
strict lower bound, not an exact match), and the resolved id is the dag-run row's
`wB`, not the task instance's `wA`. -/
theorem task_instance_lookup_map_index_lower_bound_witness :
    get_dag_id_from_task_instance stores9
        (some (.jsonArr [.str "wA", .str "t", .str "r", .int 2]))
      = .ok (some "wB") :=
  task_instance_lookup_map_index_lower_bound_and_dagrun_projection stores9 "wA" "t" "r" 2
    ⟨"1", "wB"⟩ [] rfl ⟨"wA", "t", "r", 7⟩ (List.Mem.head _) rfl rfl rfl (by decide)

/-- C10: when the variable resolver finds no row for a non-null identifier, the hard
error it raises carries the message "Connection not found" — the same error value the
connection resolver raises on a miss, so the two entity types are indistinguishable
by error at the boundary. -/
theorem variable_not_found_uses_connection_message (st st2 : Stores) (s s2 : String)
    (hs : (s == "") = false)
    (hfind : st.vars.find? (fun v => pkMatchesRowId (some (.str s)) v.id) = none)
    (hs2 : (s2 == "") = false)
    (hfind2 : st2.connections.find? (fun c => pkMatchesRowId (some (.str s2)) c.id) = none) :
    get_variable_key st (some (.str s)) = .error (.airflowException "Connection not found")
    ∧ get_variable_key st (some (.str s)) = get_connection_id st2 (some (.str s2)) := by
  have h1 : get_variable_key st (some (.str s))
      = .error (.airflowException "Connection not found") := by
    simp [get_variable_key, pkIsFalsy, hs, hfind]
  have h2 : get_connection_id st2 (some (.str s2))
      = .error (.airflowException "Connection not found") := by
    simp [get_connection_id, pkIsFalsy, hs2, hfind2]
  exact ⟨h1, h1.trans h2.symm⟩

/-- C10 witness: the shared error value at a concrete identifier over empty stores. -/
theorem variable_not_found_uses_connection_message_witness :
    get_variable_key stores0 (some (.str "9"))
      = .error (.airflowException "Connection not found")
    ∧ get_variable_key stores0 (some (.str "9"))
      = get_connection_id stores0 (some (.str "9")) :=
  variable_not_found_uses_connection_message stores0 stores0 "9" "9" rfl rfl rfl rfl

end AirflowSM
